import Mathlib

set_option maxRecDepth 4096

namespace LockPort

/-! Shallow embedding of the LockPort repository core: the PIN credential
store (src/lockport/pin_store.py), the device state ledger
(src/lockport/device_state.py), the background service orchestrator
(src/lockport/service.py), the device-window event handlers
(src/lockport/device_window.py) and the device toggle result type
(src/lockport/device_locker.py).

Modelling conventions:
- time is whole seconds as `Nat` (the code uses `time.time()` floats only
  for comparisons and additions, which agree on this abstraction);
- the PBKDF2 hash stored in a `PinStoreRecord` is modelled by keeping the
  PIN itself and comparing with string equality (a collision-free hash
  abstraction of `PinStoreRecord.verify`);
- persisted JSON files are modelled as the structured values they encode;
- the subprocess toggle (`DeviceLocker.disable`/`enable`) is an external
  adapter, so its outcome is passed in as an input and the call itself is
  recorded as an `Action` in the output action list. -/

/-- Configuration fields from `LockPortConfig` (src/lockport/config.py)
that the credential-store claims depend on. -/
structure PinConfig where
  pin_attempt_limit : Nat
  pin_lockout_seconds : Nat
deriving Repr, DecidableEq

/-- `DEFAULT_CONFIG` values: limit 5, lockout 300 seconds. -/
def defaultPinConfig : PinConfig := { pin_attempt_limit := 5, pin_lockout_seconds := 300 }

/-- The credential record persisted by `PinManager` (pin_store.py): the PIN
(standing for its salted hash), the failed-attempt counter, the lockout
deadline and the last-update timestamp. -/
structure PinData where
  pin : String
  failed_attempts : Nat
  lock_until : Nat
  updated_at : Nat
deriving Repr, DecidableEq

/-- Outcome of `PinManager.verify_pin`: return True, raise
`PinValidationError`, or raise `PinLockedError`. -/
inductive PinResult where
  | success
  | invalidPin
  | lockedOut
deriving Repr, DecidableEq

/-- `PinManager.verify_pin` (pin_store.py lines 107-127) acting on the
persisted record: lockout guard, constant-time hash comparison (modelled as
PIN equality), attempt counting and lockout arming.  Returns the record as
written back together with the outcome. -/
def verify_pin (cfg : PinConfig) (d : PinData) (candidate : String) (now : Nat) :
    PinData × PinResult :=
  if now < d.lock_until then
    (d, PinResult.lockedOut)
  else if candidate = d.pin then
    ({ d with failed_attempts := 0, lock_until := 0, updated_at := now }, PinResult.success)
  else if d.failed_attempts + 1 ≥ cfg.pin_attempt_limit then
    ({ d with failed_attempts := 0, lock_until := now + cfg.pin_lockout_seconds },
      PinResult.invalidPin)
  else
    ({ d with failed_attempts := d.failed_attempts + 1 }, PinResult.invalidPin)

/-- Python `str.isdigit` as used on PIN candidates: non-empty and every
character a digit (restricted to ASCII digits; LockPort PINs are ASCII). -/
def py_isdigit (s : String) : Bool :=
  s.length != 0 && s.toList.all Char.isDigit

/-- The shape test of `PinManager.set_pin`:
`new_pin.isdigit() and 4 <= len(new_pin) <= 8`. -/
def pinShapeOk (s : String) : Bool :=
  py_isdigit s && decide (4 ≤ s.length) && decide (s.length ≤ 8)

/-- Outcome of `PinManager.set_pin`: success, the `ValueError` raised on a
malformed candidate, or the `PinValidationError` raised when the supplied
current PIN fails to verify. -/
inductive SetPinOutcome where
  | ok
  | valueError
  | validationError
deriving Repr, DecidableEq

/-- `PinManager.set_pin` (pin_store.py lines 129-148): shape validation
before any store access, optional current-PIN verification (which mutates
the record exactly as `verify_pin` does), then a fresh record with the new
PIN and cleared counters. -/
def set_pin (cfg : PinConfig) (d : PinData) (new_pin : String)
    (current_pin : Option String) (now : Nat) : PinData × SetPinOutcome :=
  if pinShapeOk new_pin then
    match current_pin with
    | none =>
        ({ pin := new_pin, failed_attempts := 0, lock_until := 0, updated_at := now },
          SetPinOutcome.ok)
    | some c =>
        let v := verify_pin cfg d c now
        match v.2 with
        | PinResult.success =>
            ({ pin := new_pin, failed_attempts := 0, lock_until := 0, updated_at := now },
              SetPinOutcome.ok)
        | _ => (v.1, SetPinOutcome.validationError)
  else
    (d, SetPinOutcome.valueError)

/-- The record written by `PinManager._initialize_store`: default PIN
"0000", zero failed attempts, no lockout. -/
def initRecord (now : Nat) : PinData :=
  { pin := "0000", failed_attempts := 0, lock_until := 0, updated_at := now }

/-- `PinManager._read` (pin_store.py lines 96-101) at the file level: the
backing file is `some` record when it exists; a missing file is silently
re-initialized (same code path as the constructor's `_initialize_store`
call) and the fresh record returned. -/
def pm_read (file : Option PinData) (now : Nat) : PinData :=
  match file with
  | some d => d
  | none => initRecord now

/-- `PinManager.verify_pin` at the file level: `_read` (initializing a
missing file), then the record-level verification; returns the file
content after the call together with the outcome. -/
def pm_verify_pin (cfg : PinConfig) (file : Option PinData) (candidate : String)
    (now : Nat) : Option PinData × PinResult :=
  let d := pm_read file now
  let v := verify_pin cfg d candidate now
  (some v.1, v.2)

/-- Iterated failed verification: `failN cfg c t n d` is the record after
`n` consecutive `verify_pin` calls with the (assumed wrong) candidate `c`
at time `t`. -/
def failN (cfg : PinConfig) (c : String) (t : Nat) : Nat → PinData → PinData
  | 0, d => d
  | n + 1, d => (verify_pin cfg (failN cfg c t n d) c t).1

/-- One `DeviceState` record of the ledger (device_state.py). -/
structure DeviceState where
  instance_id : String
  drive : String
  volume : String
  status : String
  updated_at : Nat
deriving Repr, DecidableEq

/-- The in-memory cache of `DeviceStateStore`: a string-keyed dictionary. -/
abbrev StateMap := List (String × DeviceState)

/-- Python dictionary assignment `cache[key] = value`: the key now maps to
the new value, other keys are untouched. -/
def dictSet (m : StateMap) (k : String) (v : DeviceState) : StateMap :=
  (k, v) :: m.filter (fun p => p.1 != k)

/-- `DeviceStateStore.upsert` (device_state.py lines 72-88): replace the
record for `instance_id` with a freshly timestamped one, normalizing
missing drive/volume with Python `x or ""`. -/
def upsert (m : StateMap) (instance_id : String) (drive volume : Option String)
    (status : String) (now : Nat) : StateMap :=
  dictSet m instance_id
    { instance_id := instance_id
      drive := drive.getD ""
      volume := volume.getD ""
      status := status
      updated_at := now }

/-- The serialized form of a `DeviceState` written by
`DeviceStateStore._persist` via `DeviceState.to_dict`. -/
structure PersistedDeviceState where
  instance_id : String
  drive : String
  volume : String
  status : String
  updated_at : Nat
deriving Repr, DecidableEq

/-- `DeviceState.to_dict`: field-for-field serialization. -/
def to_dict (st : DeviceState) : PersistedDeviceState :=
  { instance_id := st.instance_id
    drive := st.drive
    volume := st.volume
    status := st.status
    updated_at := st.updated_at }

/-- `DeviceStateStore._persist`: the backing file holds every cache entry
serialized under its key. -/
def persistStore (m : StateMap) : List (String × PersistedDeviceState) :=
  m.map (fun p => (p.1, to_dict p.2))

/-- Python `s or dflt` on a string already coerced by `str(...)`. -/
def pyOrDefault (s dflt : String) : String :=
  if s = "" then dflt else s

/-- One entry of `DeviceStateStore._load` (device_state.py lines 37-59):
rebuild a `DeviceState`, defaulting an empty status to "unknown" (`str(
value.get("status", "unknown") or "unknown")`); `raw_key` is only the
fallback for a file missing the `instance_id` field, which `_persist`
always writes. -/
def loadEntry (raw_key : String) (v : PersistedDeviceState) : DeviceState :=
  { instance_id := v.instance_id
    drive := pyOrDefault v.drive ""
    volume := pyOrDefault v.volume ""
    status := pyOrDefault v.status "unknown"
    updated_at := v.updated_at }

/-- `DeviceStateStore._load` over a backing file produced by `_persist`. -/
def loadStore (file : List (String × PersistedDeviceState)) : StateMap :=
  file.map (fun p => (p.1, loadEntry p.1 p.2))

/-- `USBEvent` (usb_monitor.py lines 26-32). -/
structure USBEvent where
  instance_id : String
  drive_letter : Option String
  volume_name : Option String
  event_type : String
  synthetic : Bool
deriving Repr, DecidableEq

/-- Observable side effects of event processing: toggle invocations on the
`DeviceLocker`, a logged toggle failure, and the device-window status
report for a synthetic arrival. -/
inductive Action where
  | disable (id : String)
  | enable (id : String)
  | logError (id : String)
  | reportStatus (id status : String)
deriving Repr, DecidableEq

/-- Whether an action is a disable-toggle invocation. -/
def isDisable (a : Action) : Bool :=
  match a with
  | Action.disable _ => true
  | _ => false

/-- `LockPortService.RECENT_UNLOCK_SECONDS` (service.py line 20); the
device window uses the same 10-second constant. -/
def RECENT_UNLOCK_SECONDS : Nat := 10

/-- Result of one service `_process_event` call: ledger contents, the
active-processing set after the call, and the emitted actions. -/
structure SvcResult where
  store : StateMap
  active : List String
  actions : List Action
deriving Repr, DecidableEq

/-- `LockPortService._process_usb_event` (service.py lines 152-163):
disable the device, record status "locked" regardless of the toggle
outcome `disable_ok`, and log an error when the toggle failed. -/
def process_usb_event (m : StateMap) (e : USBEvent) (now : Nat) (disable_ok : Bool) :
    StateMap × List Action :=
  (upsert m e.instance_id e.drive_letter e.volume_name "locked" now,
   Action.disable e.instance_id ::
     (if disable_ok then [] else [Action.logError e.instance_id]))

/-- `LockPortService._handle_usb_removal` (service.py lines 165-182):
discard the id from the active set, disable the device, log on failure,
and record status "removed" regardless of the toggle outcome. -/
def handle_usb_removal (m : StateMap) (active : List String) (e : USBEvent)
    (now : Nat) (disable_ok : Bool) : SvcResult :=
  { store := upsert m e.instance_id e.drive_letter e.volume_name "removed" now
    active := active.erase e.instance_id
    actions := Action.disable e.instance_id ::
      (if disable_ok then [] else [Action.logError e.instance_id]) }

/-- The tail of `LockPortService._process_event` (service.py lines
140-150): test-and-insert into the active set (dropping the event when the
id is already present), run `_process_usb_event`, and discard the id in
the `finally` block. -/
def process_event_locked (m : StateMap) (active : List String) (e : USBEvent)
    (now : Nat) (disable_ok : Bool) : SvcResult :=
  if e.instance_id ∈ active then
    { store := m, active := active, actions := [] }
  else
    let active1 := e.instance_id :: active
    let step := process_usb_event m e now disable_ok
    { store := step.1, active := active1.erase e.instance_id, actions := step.2 }

/-- `LockPortService._process_event` (service.py lines 115-150): drop
events without an instance id, dispatch removals, skip re-locking a
recently unlocked device, preserve an unlocked device on a synthetic
arrival, otherwise proceed to lock. -/
def process_event (m : StateMap) (active : List String) (e : USBEvent)
    (now : Nat) (disable_ok : Bool) : SvcResult :=
  if e.instance_id = "" then
    { store := m, active := active, actions := [] }
  else if e.event_type = "removal" then
    handle_usb_removal m active e now disable_ok
  else
    match m.lookup e.instance_id with
    | some st =>
        if st.status = "unlocked" then
          if now - st.updated_at < RECENT_UNLOCK_SECONDS then
            { store := m, active := active, actions := [] }
          else if e.synthetic then
            { store := m, active := active, actions := [] }
          else
            process_event_locked m active e now disable_ok
        else
          process_event_locked m active e now disable_ok
    | none => process_event_locked m active e now disable_ok

/-- The duplicate-arrival grace test of `_handle_arrival`
(device_window.py lines 302-304): an existing record, currently
"unlocked", updated less than 10 seconds ago. -/
def windowWithinGrace (m : StateMap) (e : USBEvent) (now : Nat) : Bool :=
  match m.lookup e.instance_id with
  | some st => st.status == "unlocked" && decide (now - st.updated_at < RECENT_UNLOCK_SECONDS)
  | none => false

/-- Result of one device-window `_handle_arrival` call. -/
structure WinResult where
  store : StateMap
  processing : List String
  actions : List Action
deriving Repr, DecidableEq

/-- `_handle_arrival` (device_window.py lines 296-349): drop ids already
in `processing_devices`; skip a duplicate arrival for a recently unlocked
device; on a synthetic arrival report the existing status (default
"unknown") without toggling or writing; otherwise disable the device and
record status "locked" (logging a toggle failure). -/
def handle_arrival (m : StateMap) (processing : List String) (e : USBEvent)
    (now : Nat) (lock_ok : Bool) : WinResult :=
  if e.instance_id ∈ processing then
    { store := m, processing := processing, actions := [] }
  else
    let p1 := e.instance_id :: processing
    if windowWithinGrace m e now then
      { store := m, processing := p1.erase e.instance_id, actions := [] }
    else if e.synthetic then
      { store := m
        processing := p1.erase e.instance_id
        actions := [Action.reportStatus e.instance_id
          (match m.lookup e.instance_id with
           | some st => st.status
           | none => "unknown")] }
    else
      { store := upsert m e.instance_id e.drive_letter e.volume_name "locked" now
        processing := p1.erase e.instance_id
        actions := Action.disable e.instance_id ::
          (if lock_ok then [] else [Action.logError e.instance_id]) }

/-- `DeviceActionResult` (device_locker.py lines 12-16). -/
structure DeviceActionResult where
  instance_id : String
  success : Bool
  message : String
deriving Repr, DecidableEq

/-- Whether `pat` matches at the head of `s` (character-wise). -/
def leadMatch : List Char → List Char → Bool
  | [], _ => true
  | _ :: _, [] => false
  | a :: as, b :: bs => a == b && leadMatch as bs

/-- Whether `pat` occurs contiguously inside `s` (Python `pat in s`). -/
def containsSeq (pat : List Char) : List Char → Bool
  | [] => leadMatch pat []
  | b :: bs => leadMatch pat (b :: bs) || containsSeq pat bs

/-- Python `s.lower()` on the message, character-wise (ASCII case). -/
def lowerChars (s : String) : List Char :=
  s.toList.map Char.toLower

/-- `DeviceActionResult.is_device_missing` (device_locker.py lines 18-20):
case-insensitive keyword match on the free-text message. -/
def is_device_missing (r : DeviceActionResult) : Bool :=
  let text := lowerChars r.message
  containsSeq "devicenotfound".toList text || containsSeq "not connected".toList text ||
    containsSeq "device is not connected".toList text

/-- `_update_state` (device_window.py lines 277-285): re-upsert the record
for `instance_id` with the new status, keeping the known drive/volume. -/
def update_state (m : StateMap) (instance_id status : String) (now : Nat) : StateMap :=
  match m.lookup instance_id with
  | some st => upsert m instance_id (some st.drive) (some st.volume) status now
  | none => upsert m instance_id none none status now

/-- The enforcement tail of `handle_unlock` (device_window.py lines
413-426), entered only after `pin_manager.verify_pin` succeeded:
`locker.enable` is invoked; on success the state becomes "unlocked"; on a
failure whose message matches the device-missing keywords the state
becomes "removed"; any other failure leaves the ledger untouched. -/
def handle_unlock (m : StateMap) (instance_id : String)
    (enable_result : DeviceActionResult) (now : Nat) : StateMap × List Action :=
  if enable_result.success then
    (update_state m instance_id "unlocked" now, [Action.enable instance_id])
  else if is_device_missing enable_result then
    (update_state m instance_id "removed" now, [Action.enable instance_id])
  else
    (m, [Action.enable instance_id])

/-- Phase of one worker thread with respect to a single device id: idle,
inside `_process_usb_event` for `id` (membership in the active set was
acquired on entry), or running the removal-path toggle for `id` (after
`_handle_usb_removal` discarded the id from the set). -/
inductive WPhase where
  | idle
  | processing (id : String)
  | removing (id : String)
deriving Repr, DecidableEq

/-- Shared state of the worker pool: the `_active_devices` set (guarded by
`_active_lock`) and the phase of each worker. -/
structure Sys where
  active : List String
  workers : List WPhase
deriving Repr, DecidableEq

/-- Service start: empty active set, all workers idle. -/
def initSys (n : Nat) : Sys :=
  { active := [], workers := List.replicate n WPhase.idle }

/-- Atomic steps of the worker pool, each performed under `_active_lock`
or local to one worker (service.py lines 140-150 and 165-182):
test-and-insert for a non-removal event (`acquire`/`dropBusy`), the
`finally` discard when `_process_usb_event` returns (`finish`), and the
removal path that clears membership before its own toggle
(`removalClear`/`removalFinish`). -/
inductive SStep : Sys → Sys → Prop where
  | acquire (a : List String) (l r : List WPhase) (id : String) :
      id ∉ a →
      SStep ⟨a, l ++ WPhase.idle :: r⟩ ⟨id :: a, l ++ WPhase.processing id :: r⟩
  | dropBusy (s : Sys) (id : String) :
      id ∈ s.active → SStep s s
  | finish (a : List String) (l r : List WPhase) (id : String) :
      SStep ⟨a, l ++ WPhase.processing id :: r⟩ ⟨a.erase id, l ++ WPhase.idle :: r⟩
  | removalClear (a : List String) (l r : List WPhase) (id : String) :
      SStep ⟨a, l ++ WPhase.idle :: r⟩ ⟨a.erase id, l ++ WPhase.removing id :: r⟩
  | removalFinish (a : List String) (l r : List WPhase) (id : String) :
      SStep ⟨a, l ++ WPhase.removing id :: r⟩ ⟨a, l ++ WPhase.idle :: r⟩

/-- Reflexive-transitive closure of `SStep`. -/
inductive SReach (s : Sys) : Sys → Prop where
  | refl : SReach s s
  | tail {t u : Sys} : SReach s t → SStep t u → SReach s u

/-- The steps available when no removal event is ever processed. -/
inductive NRStep : Sys → Sys → Prop where
  | acquire (a : List String) (l r : List WPhase) (id : String) :
      id ∉ a →
      NRStep ⟨a, l ++ WPhase.idle :: r⟩ ⟨id :: a, l ++ WPhase.processing id :: r⟩
  | dropBusy (s : Sys) (id : String) :
      id ∈ s.active → NRStep s s
  | finish (a : List String) (l r : List WPhase) (id : String) :
      NRStep ⟨a, l ++ WPhase.processing id :: r⟩ ⟨a.erase id, l ++ WPhase.idle :: r⟩

/-- Reflexive-transitive closure of `NRStep`. -/
inductive NRReach (s : Sys) : Sys → Prop where
  | refl : NRReach s s
  | tail {t u : Sys} : NRReach s t → NRStep t u → NRReach s u

/-- Worker `p` is inside `_process_usb_event` for device `id`. -/
def isProcessingFor (id : String) (p : WPhase) : Bool :=
  match p with
  | WPhase.processing j => j == id
  | _ => false

/-- Worker `p` is running a lock/unlock toggle for device `id` (either the
arrival path or the removal path). -/
def isTogglingFor (id : String) (p : WPhase) : Bool :=
  match p with
  | WPhase.processing j => j == id
  | WPhase.removing j => j == id
  | WPhase.idle => false

/-- Number of workers inside `_process_usb_event` for `id`. -/
def procCount (ws : List WPhase) (id : String) : Nat :=
  (ws.filter (isProcessingFor id)).length

/-- Number of workers concurrently running a toggle for `id`. -/
def togglingCount (s : Sys) (id : String) : Nat :=
  (s.workers.filter (isTogglingFor id)).length

/-- Invariant of removal-free executions: the active set has no duplicate
ids and counts, per id, exactly the workers inside `_process_usb_event`;
no worker is ever in the removal phase. -/
def SvcInv (s : Sys) : Prop :=
  s.active.Nodup ∧
  (∀ id, s.active.count id = procCount s.workers id) ∧
  (∀ id, WPhase.removing id ∉ s.workers)

theorem failN_below (cfg : PinConfig) (c : String) (t : Nat) (d : PinData)
    (hc : c ≠ d.pin) (hl : d.lock_until ≤ t) :
    ∀ n, n + d.failed_attempts < cfg.pin_attempt_limit →
      failN cfg c t n d = { d with failed_attempts := d.failed_attempts + n } := by
  intro n
  induction n with
  | zero => intro _; rfl
  | succ k ih =>
      intro h
      have hk := ih (by omega)
      rw [failN, hk]
      unfold verify_pin
      rw [if_neg (by simp; omega)]
      rw [if_neg (by simpa using hc)]
      rw [if_neg (by simp; omega)]
      rfl

/-- Claim C2: starting from a record with `failed_attempts = 0` and no
active lockout, exactly `pin_attempt_limit` consecutive failed
verifications at time `t` leave the record with
`lock_until = t + pin_lockout_seconds` and `failed_attempts = 0`; while
the current time is before `lock_until`, every verification (any
candidate) fails with LockedOut and leaves the record untouched; once
`lock_until` has elapsed, the correct PIN succeeds with
`failed_attempts = 0`. -/
theorem pin_lockout_cycle (cfg : PinConfig) (d : PinData) (c : String) (t t1 t2 : Nat)
    (hlim : 0 < cfg.pin_attempt_limit) (hc : c ≠ d.pin)
    (hf : d.failed_attempts = 0) (hl : d.lock_until ≤ t) :
    (failN cfg c t cfg.pin_attempt_limit d).lock_until = t + cfg.pin_lockout_seconds ∧
    (failN cfg c t cfg.pin_attempt_limit d).failed_attempts = 0 ∧
    (∀ cand, t1 < t + cfg.pin_lockout_seconds →
      verify_pin cfg (failN cfg c t cfg.pin_attempt_limit d) cand t1
        = (failN cfg c t cfg.pin_attempt_limit d, PinResult.lockedOut)) ∧
    (t + cfg.pin_lockout_seconds ≤ t2 →
      (verify_pin cfg (failN cfg c t cfg.pin_attempt_limit d) d.pin t2).2 = PinResult.success ∧
      (verify_pin cfg (failN cfg c t cfg.pin_attempt_limit d) d.pin t2).1.failed_attempts
        = 0) := by
  obtain ⟨k, hk⟩ : ∃ k, cfg.pin_attempt_limit = k + 1 :=
    ⟨cfg.pin_attempt_limit - 1, by omega⟩
  have hbelow := failN_below cfg c t d hc hl k (by omega)
  have hstep : failN cfg c t cfg.pin_attempt_limit d
      = { d with failed_attempts := 0, lock_until := t + cfg.pin_lockout_seconds } := by
    rw [hk, failN, hbelow]
    unfold verify_pin
    rw [if_neg (by simp; omega)]
    rw [if_neg (by simpa using hc)]
    rw [if_pos (by simp; omega)]
  refine ⟨by rw [hstep], by rw [hstep], ?_, ?_⟩
  · intro cand ht1
    rw [hstep]
    unfold verify_pin
    rw [if_pos (by simpa using ht1)]
  · intro ht2
    rw [hstep]
    unfold verify_pin
    rw [if_neg (by simp; omega), if_pos rfl]
    exact ⟨rfl, rfl⟩

/-- Concrete run of `pin_lockout_cycle`: limit 2, lockout 300 s, record
with PIN "1234"; two wrong attempts at time 100 arm a lockout until 400;
at 399 even "1234" is locked out; at 400 it succeeds. -/
theorem pin_lockout_cycle_witness :
    (failN ⟨2, 300⟩ "1111" 100 2 ⟨"1234", 0, 0, 0⟩).lock_until = 100 + 300 ∧
    (failN ⟨2, 300⟩ "1111" 100 2 ⟨"1234", 0, 0, 0⟩).failed_attempts = 0 ∧
    (∀ cand, 399 < 100 + 300 →
      verify_pin ⟨2, 300⟩ (failN ⟨2, 300⟩ "1111" 100 2 ⟨"1234", 0, 0, 0⟩) cand 399
        = (failN ⟨2, 300⟩ "1111" 100 2 ⟨"1234", 0, 0, 0⟩, PinResult.lockedOut)) ∧
    (100 + 300 ≤ 400 →
      (verify_pin ⟨2, 300⟩ (failN ⟨2, 300⟩ "1111" 100 2 ⟨"1234", 0, 0, 0⟩) "1234" 400).2
        = PinResult.success ∧
      (verify_pin ⟨2, 300⟩ (failN ⟨2, 300⟩ "1111" 100 2 ⟨"1234", 0, 0, 0⟩) "1234" 400).1.failed_attempts
        = 0) :=
  pin_lockout_cycle ⟨2, 300⟩ ⟨"1234", 0, 0, 0⟩ "1111" 100 399 400
    (by decide) (by decide) rfl (by decide)

/-- Claim C3: for every well-formed PIN `p` (4-8 digits), `set_pin p`
succeeds and a subsequent `verify_pin p` succeeds, while `verify_pin q`
for any `q ≠ p` (in particular any different digit string) fails with
InvalidPin. -/
theorem set_pin_verify_roundtrip (cfg : PinConfig) (d : PinData) (p q : String)
    (t t1 t2 : Nat) (hp : pinShapeOk p = true) (hq : q ≠ p) :
    (set_pin cfg d p none t).2 = SetPinOutcome.ok ∧
    (verify_pin cfg (set_pin cfg d p none t).1 p t1).2 = PinResult.success ∧
    (verify_pin cfg (set_pin cfg d p none t).1 q t2).2 = PinResult.invalidPin := by
  have hset : set_pin cfg d p none t
      = ({ pin := p, failed_attempts := 0, lock_until := 0, updated_at := t },
          SetPinOutcome.ok) := by
    unfold set_pin
    rw [if_pos hp]
  refine ⟨by rw [hset], ?_, ?_⟩
  · rw [hset]
    unfold verify_pin
    simp
  · rw [hset]
    unfold verify_pin
    simp only
    rw [if_neg (by simp), if_neg (by simpa using hq)]
    split <;> rfl

/-- Concrete run of `set_pin_verify_roundtrip`: set "1234", verify "1234"
succeeds, verify "9999" fails with InvalidPin. -/
theorem set_pin_verify_roundtrip_witness :
    (set_pin defaultPinConfig ⟨"0000", 3, 50, 0⟩ "1234" none 60).2 = SetPinOutcome.ok ∧
    (verify_pin defaultPinConfig (set_pin defaultPinConfig ⟨"0000", 3, 50, 0⟩ "1234" none 60).1
      "1234" 61).2 = PinResult.success ∧
    (verify_pin defaultPinConfig (set_pin defaultPinConfig ⟨"0000", 3, 50, 0⟩ "1234" none 60).1
      "9999" 62).2 = PinResult.invalidPin :=
  set_pin_verify_roundtrip defaultPinConfig ⟨"0000", 3, 50, 0⟩ "1234" "9999" 60 61 62
    (by decide) (by decide)

/-- Claim C8: a candidate PIN that is not all digits or whose length lies
outside 4-8 makes `set_pin` fail with the validation ValueError before any
store access: the record is returned unchanged (no failed attempt counted,
no lockout armed), for every current-PIN argument. -/
theorem set_pin_rejects_malformed (cfg : PinConfig) (d : PinData) (p : String)
    (cur : Option String) (t : Nat) (hbad : pinShapeOk p = false) :
    set_pin cfg d p cur t = (d, SetPinOutcome.valueError) := by
  unfold set_pin
  rw [if_neg (by simp [hbad])]

/-- Concrete run of `set_pin_rejects_malformed`: "12a4" is rejected with
the record untouched even though a current PIN was supplied. -/
theorem set_pin_rejects_malformed_witness :
    set_pin defaultPinConfig ⟨"0000", 2, 0, 7⟩ "12a4" (some "0000") 9
      = (⟨"0000", 2, 0, 7⟩, SetPinOutcome.valueError) :=
  set_pin_rejects_malformed defaultPinConfig ⟨"0000", 2, 0, 7⟩ "12a4" (some "0000") 9
    (by decide)

/-- Claim C9: whenever the backing credential file is missing at a read
(constructor or any later `_read`), the store is re-initialized with PIN
"0000", zero failed attempts and no lockout; in particular verifying
"0000" against a missing file succeeds at any time, so deleting the file
resets the PIN to "0000" and clears any lockout. -/
theorem missing_store_defaults : ∀ now : Nat,
    pm_read none now = ⟨"0000", 0, 0, now⟩ ∧
    pm_verify_pin defaultPinConfig none "0000" now
      = (some ⟨"0000", 0, 0, now⟩, PinResult.success) := by
  intro now
  refine ⟨rfl, ?_⟩
  unfold pm_verify_pin pm_read initRecord verify_pin
  simp

theorem lookup_dictSet_self (m : StateMap) (k : String) (v : DeviceState) :
    (dictSet m k v).lookup k = some v := by
  simp [dictSet, List.lookup]

theorem lookup_upsert_self (m : StateMap) (k : String) (dr vol : Option String)
    (s : String) (t : Nat) :
    (upsert m k dr vol s t).lookup k
      = some { instance_id := k, drive := dr.getD "", volume := vol.getD "",
               status := s, updated_at := t } :=
  lookup_dictSet_self m k _

theorem lookup_loadStore_persistStore (m : StateMap) (k : String) :
    (loadStore (persistStore m)).lookup k
      = (m.lookup k).map (fun st => loadEntry k (to_dict st)) := by
  induction m with
  | nil => rfl
  | cons p rest ih =>
      obtain ⟨a, b⟩ := p
      by_cases hk : k == a
      · simp [loadStore, persistStore, List.lookup, hk] at ih ⊢
        have : loadEntry a (to_dict b) = loadEntry k (to_dict b) := rfl
        simp [this]
      · simp only [loadStore, persistStore, List.map_cons, List.lookup, hk] at ih ⊢
        simpa [persistStore, loadStore] using ih

theorem pyOrDefault_empty (s : String) : pyOrDefault s "" = s := by
  unfold pyOrDefault
  split <;> simp_all

theorem loadEntry_to_dict (k : String) (st : DeviceState) (hs : st.status ≠ "") :
    loadEntry k (to_dict st) = st := by
  unfold loadEntry to_dict
  rw [pyOrDefault_empty, pyOrDefault_empty]
  rw [show pyOrDefault st.status "unknown" = st.status from by
    unfold pyOrDefault; rw [if_neg hs]]

/-- Claim C7: `upsert` followed by `get` returns a freshly timestamped
record with exactly the upserted fields, and reading a new store instance
from the backing file written by `_persist` (process restart) reproduces
every cached record, in particular its status. -/
theorem upsert_get_persist_roundtrip (m : StateMap) (id : String)
    (dr vol : Option String) (s : String) (t : Nat) (st : DeviceState)
    (hget : m.lookup id = some st) (hs : st.status ≠ "") :
    (upsert m id dr vol s t).lookup id
      = some { instance_id := id, drive := dr.getD "", volume := vol.getD "",
               status := s, updated_at := t } ∧
    (loadStore (persistStore m)).lookup id = some st := by
  refine ⟨lookup_upsert_self m id dr vol s t, ?_⟩
  rw [lookup_loadStore_persistStore, hget, Option.map_some']
  rw [loadEntry_to_dict id st hs]

/-- Concrete run of `upsert_get_persist_roundtrip` on a one-entry store. -/
theorem upsert_get_persist_roundtrip_witness :
    (upsert [("A", ⟨"A", "E:", "S", "locked", 5⟩)] "A" none none "unlocked" 9).lookup "A"
      = some { instance_id := "A", drive := (none : Option String).getD "",
               volume := (none : Option String).getD "", status := "unlocked",
               updated_at := 9 } ∧
    (loadStore (persistStore [("A", ⟨"A", "E:", "S", "locked", 5⟩)])).lookup "A"
      = some ⟨"A", "E:", "S", "locked", 5⟩ :=
  upsert_get_persist_roundtrip [("A", ⟨"A", "E:", "S", "locked", 5⟩)] "A" none none
    "unlocked" 9 ⟨"A", "E:", "S", "locked", 5⟩ (by decide) (by decide)

/-- Claim C6: during automatic event-driven processing a toggle failure is
absorbed: a (non-synthetic) arrival that reaches `_process_usb_event`
persists status "locked" whether or not the disable call succeeded, a
removal persists status "removed" whether or not the disable call
succeeded, exactly one disable-toggle call is made in either case (no
retry), and a failure only adds a log action. -/
theorem toggle_failure_absorbed :
    ∀ (m : StateMap) (active : List String) (e : USBEvent) (now : Nat) (b : Bool),
    (process_usb_event m e now b).1.lookup e.instance_id
      = some { instance_id := e.instance_id, drive := e.drive_letter.getD "",
               volume := e.volume_name.getD "", status := "locked", updated_at := now } ∧
    ((process_usb_event m e now b).2.filter isDisable).length = 1 ∧
    (process_usb_event m e now false).1 = (process_usb_event m e now true).1 ∧
    (process_usb_event m e now true).2 = [Action.disable e.instance_id] ∧
    (process_usb_event m e now false).2
      = [Action.disable e.instance_id, Action.logError e.instance_id] ∧
    (handle_usb_removal m active e now b).store.lookup e.instance_id
      = some { instance_id := e.instance_id, drive := e.drive_letter.getD "",
               volume := e.volume_name.getD "", status := "removed", updated_at := now } ∧
    ((handle_usb_removal m active e now b).actions.filter isDisable).length = 1 ∧
    (handle_usb_removal m active e now false).store
      = (handle_usb_removal m active e now true).store ∧
    (handle_usb_removal m active e now true).actions = [Action.disable e.instance_id] ∧
    (handle_usb_removal m active e now false).actions
      = [Action.disable e.instance_id, Action.logError e.instance_id] := by
  intro m active e now b
  refine ⟨lookup_upsert_self m e.instance_id e.drive_letter e.volume_name "locked" now,
    ?_, rfl, rfl, rfl,
    lookup_upsert_self m e.instance_id e.drive_letter e.volume_name "removed" now,
    ?_, rfl, rfl, rfl⟩
  · cases b <;> rfl
  · cases b <;> rfl

/-- Claim C5: an arrival for a device recorded "unlocked" and updated less
than `RECENT_UNLOCK_SECONDS` ago does nothing (no toggle call, no ledger
write, active set untouched); a non-synthetic arrival for that device
after the grace window (and not already being processed) disables it and
records status "locked". -/
theorem recent_unlock_debounce :
    ∀ (m : StateMap) (active : List String) (e : USBEvent) (now : Nat) (b : Bool)
      (st : DeviceState),
    (e.event_type ≠ "removal" → m.lookup e.instance_id = some st →
      st.status = "unlocked" → now - st.updated_at < RECENT_UNLOCK_SECONDS →
      process_event m active e now b = { store := m, active := active, actions := [] }) ∧
    (e.instance_id ≠ "" → e.event_type ≠ "removal" → e.synthetic = false →
      m.lookup e.instance_id = some st → st.status = "unlocked" →
      RECENT_UNLOCK_SECONDS ≤ now - st.updated_at → e.instance_id ∉ active →
      process_event m active e now b
        = { store := upsert m e.instance_id e.drive_letter e.volume_name "locked" now,
            active := active,
            actions := Action.disable e.instance_id ::
              (if b then [] else [Action.logError e.instance_id]) }) := by
  intro m active e now b st
  constructor
  · intro hrem hlookup hst helapsed
    by_cases hid : e.instance_id = ""
    · simp [process_event, hid]
    · simp [process_event, hid, hrem, hlookup, hst, helapsed]
  · intro hid hrem hsyn hlookup hst hge hactive
    have hnlt : ¬(now - st.updated_at < RECENT_UNLOCK_SECONDS) := Nat.not_lt.mpr hge
    simp [process_event, hid, hrem, hlookup, hst, hnlt, hsyn,
      process_event_locked, hactive, process_usb_event]

/-- Concrete runs of `recent_unlock_debounce`: a duplicate arrival 5 s
after an unlock is ignored; the same non-synthetic arrival 15 s after the
unlock disables the device and records "locked". -/
theorem recent_unlock_debounce_witness :
    process_event [("U", ⟨"U", "E:", "L", "unlocked", 100⟩)] []
        ⟨"U", some "E:", some "L", "arrival", false⟩ 105 true
      = { store := [("U", ⟨"U", "E:", "L", "unlocked", 100⟩)], active := [],
          actions := [] } ∧
    process_event [("U", ⟨"U", "E:", "L", "unlocked", 100⟩)] []
        ⟨"U", some "E:", some "L", "arrival", false⟩ 115 true
      = { store := upsert [("U", ⟨"U", "E:", "L", "unlocked", 100⟩)] "U"
            (some "E:") (some "L") "locked" 115,
          active := [],
          actions := [Action.disable "U"] } := by
  constructor
  · exact (recent_unlock_debounce [("U", ⟨"U", "E:", "L", "unlocked", 100⟩)] []
      ⟨"U", some "E:", some "L", "arrival", false⟩ 105 true
      ⟨"U", "E:", "L", "unlocked", 100⟩).1 (by decide) (by decide) rfl (by decide)
  · exact (recent_unlock_debounce [("U", ⟨"U", "E:", "L", "unlocked", 100⟩)] []
      ⟨"U", some "E:", some "L", "arrival", false⟩ 115 true
      ⟨"U", "E:", "L", "unlocked", 100⟩).2 (by decide) (by decide) rfl (by decide) rfl
      (by decide) (by simp)

/-- Claim C1 fails on the service orchestrator: a synthetic arrival for a
device with no prior record makes `_process_event` invoke the disable
toggle and persist status "locked" instead of preserving status "unknown"
without toggling. -/
theorem synthetic_arrival_toggles_counterexample :
    (process_event [] [] ⟨"USB1", some "E:", some "STICK", "arrival", true⟩ 100 true).actions
      = [Action.disable "USB1"] ∧
    (process_event [] [] ⟨"USB1", some "E:", some "STICK", "arrival", true⟩
        100 true).store.lookup "USB1"
      = some ⟨"USB1", "E:", "STICK", "locked", 100⟩ :=
  ⟨rfl, rfl⟩

/-- Claim C1 amended: the device-window arrival handler never toggles on a
synthetic arrival, leaves the ledger unchanged and (when the event is
actually processed) reports the device's recorded status, defaulting to
"unknown"; the service orchestrator, however, exempts a synthetic arrival
from toggling only when the recorded status is "unlocked" — for any other
recorded status, or no record at all, it disables the device and persists
status "locked" exactly like a normal arrival. -/
theorem synthetic_arrival_amended :
    ∀ (m : StateMap) (p active : List String) (e : USBEvent) (now : Nat) (b : Bool)
      (st : DeviceState),
    e.synthetic = true →
    ((handle_arrival m p e now b).store = m ∧
     (∀ i, Action.disable i ∉ (handle_arrival m p e now b).actions) ∧
     (e.instance_id ∉ p → windowWithinGrace m e now = false →
       (handle_arrival m p e now b).actions
         = [Action.reportStatus e.instance_id
             (match m.lookup e.instance_id with
              | some s0 => s0.status
              | none => "unknown")])) ∧
    (m.lookup e.instance_id = some st → st.status = "unlocked" →
      e.event_type ≠ "removal" →
      process_event m active e now b = { store := m, active := active, actions := [] }) ∧
    (e.instance_id ≠ "" → e.event_type ≠ "removal" → e.instance_id ∉ active →
      (∀ s1, m.lookup e.instance_id = some s1 → s1.status ≠ "unlocked") →
      process_event m active e now b
        = { store := upsert m e.instance_id e.drive_letter e.volume_name "locked" now,
            active := active,
            actions := Action.disable e.instance_id ::
              (if b then [] else [Action.logError e.instance_id]) }) := by
  intro m p active e now b st hsyn
  refine ⟨⟨?_, ?_, ?_⟩, ?_, ?_⟩
  · by_cases hp : e.instance_id ∈ p
    · simp [handle_arrival, hp]
    · by_cases hg : windowWithinGrace m e now <;>
        simp [handle_arrival, hp, hg, hsyn]
  · intro i
    by_cases hp : e.instance_id ∈ p
    · simp [handle_arrival, hp]
    · by_cases hg : windowWithinGrace m e now <;>
        simp [handle_arrival, hp, hg, hsyn]
  · intro hp hg
    simp [handle_arrival, hp, hg, hsyn]
  · intro hlookup hst hrem
    by_cases hid : e.instance_id = ""
    · simp [process_event, hid]
    · by_cases hfresh : now - st.updated_at < RECENT_UNLOCK_SECONDS
      · simp [process_event, hid, hrem, hlookup, hst, hfresh]
      · simp [process_event, hid, hrem, hlookup, hst, hfresh, hsyn]
  · intro hid hrem hactive hnotunlocked
    cases hm : m.lookup e.instance_id with
    | none =>
        simp [process_event, hid, hrem, hm, process_event_locked, hactive,
          process_usb_event]
    | some s1 =>
        have hs1 : s1.status ≠ "unlocked" := hnotunlocked s1 hm
        simp [process_event, hid, hrem, hm, hs1, process_event_locked, hactive,
          process_usb_event]

/-- Concrete runs of `synthetic_arrival_amended`: with a "locked" record,
the window handler leaves the store alone and reports "locked", while the
service disables the same device and re-persists "locked"; with an
"unlocked" record the service does nothing. -/
theorem synthetic_arrival_amended_witness :
    (handle_arrival [("USB1", ⟨"USB1", "E:", "L", "locked", 20⟩)] []
        ⟨"USB1", some "E:", some "L", "arrival", true⟩ 100 true).store
      = [("USB1", ⟨"USB1", "E:", "L", "locked", 20⟩)] ∧
    (handle_arrival [("USB1", ⟨"USB1", "E:", "L", "locked", 20⟩)] []
        ⟨"USB1", some "E:", some "L", "arrival", true⟩ 100 true).actions
      = [Action.reportStatus "USB1" "locked"] ∧
    process_event [("USB1", ⟨"USB1", "E:", "L", "unlocked", 95⟩)] []
        ⟨"USB1", some "E:", some "L", "arrival", true⟩ 100 true
      = { store := [("USB1", ⟨"USB1", "E:", "L", "unlocked", 95⟩)], active := [],
          actions := [] } ∧
    process_event [("USB1", ⟨"USB1", "E:", "L", "locked", 20⟩)] []
        ⟨"USB1", some "E:", some "L", "arrival", true⟩ 100 true
      = { store := upsert [("USB1", ⟨"USB1", "E:", "L", "locked", 20⟩)] "USB1"
            (some "E:") (some "L") "locked" 100,
          active := [],
          actions := [Action.disable "USB1"] } := by
  refine ⟨?_, ?_, ?_, ?_⟩
  · exact ((synthetic_arrival_amended [("USB1", ⟨"USB1", "E:", "L", "locked", 20⟩)] [] []
      ⟨"USB1", some "E:", some "L", "arrival", true⟩ 100 true
      ⟨"USB1", "E:", "L", "locked", 20⟩ rfl).1).1
  · exact ((synthetic_arrival_amended [("USB1", ⟨"USB1", "E:", "L", "locked", 20⟩)] [] []
      ⟨"USB1", some "E:", some "L", "arrival", true⟩ 100 true
      ⟨"USB1", "E:", "L", "locked", 20⟩ rfl).1).2.2 (by simp) (by decide)
  · exact ((synthetic_arrival_amended [("USB1", ⟨"USB1", "E:", "L", "unlocked", 95⟩)] [] []
      ⟨"USB1", some "E:", some "L", "arrival", true⟩ 100 true
      ⟨"USB1", "E:", "L", "unlocked", 95⟩ rfl).2).1 (by decide) rfl (by decide)
  · exact ((synthetic_arrival_amended [("USB1", ⟨"USB1", "E:", "L", "locked", 20⟩)] [] []
      ⟨"USB1", some "E:", some "L", "arrival", true⟩ 100 true
      ⟨"USB1", "E:", "L", "locked", 20⟩ rfl).2).2 (by decide) (by decide) (by simp)
      (by intro s1 h1; cases h1; decide)

theorem update_state_status (m : StateMap) (id s : String) (t : Nat) :
    ((update_state m id s t).lookup id).map DeviceState.status = some s := by
  unfold update_state
  cases hm : m.lookup id <;> simp [lookup_upsert_self]

/-- Claim C10: in the manual unlock path (after a successful PIN
verification) the enable toggle is invoked exactly once; on success the
device's status is persisted as "unlocked"; on a failure whose message
matches the device-missing keywords the status is persisted as "removed"
instead. -/
theorem manual_unlock_persists :
    ∀ (m : StateMap) (id : String) (r : DeviceActionResult) (now : Nat),
    (handle_unlock m id r now).2 = [Action.enable id] ∧
    (r.success = true →
      ((handle_unlock m id r now).1.lookup id).map DeviceState.status = some "unlocked") ∧
    (r.success = false → is_device_missing r = true →
      ((handle_unlock m id r now).1.lookup id).map DeviceState.status = some "removed") := by
  intro m id r now
  refine ⟨?_, ?_, ?_⟩
  · cases hr : r.success <;> by_cases hd : is_device_missing r <;>
      simp [handle_unlock, hr, hd]
  · intro hr
    simp [handle_unlock, hr, update_state_status]
  · intro hr hd
    simp [handle_unlock, hr, hd, update_state_status]

/-- Concrete run of `manual_unlock_persists`: the enable toggle reports
failure with message "DeviceNotFound", so the state becomes "removed". -/
theorem manual_unlock_persists_witness :
    (handle_unlock [] "D" ⟨"D", false, "DeviceNotFound"⟩ 7).2 = [Action.enable "D"] ∧
    ((handle_unlock [] "D" ⟨"D", false, "DeviceNotFound"⟩ 7).1.lookup "D").map
      DeviceState.status = some "removed" :=
  ⟨(manual_unlock_persists [] "D" ⟨"D", false, "DeviceNotFound"⟩ 7).1,
   (manual_unlock_persists [] "D" ⟨"D", false, "DeviceNotFound"⟩ 7).2.2 rfl (by decide)⟩

theorem procCount_cons (p : WPhase) (ws : List WPhase) (id : String) :
    procCount (p :: ws) id
      = procCount ws id + (if isProcessingFor id p then 1 else 0) := by
  cases h : isProcessingFor id p <;> simp [procCount, List.filter_cons, h]

theorem procCount_append (l r : List WPhase) (id : String) :
    procCount (l ++ r) id = procCount l id + procCount r id := by
  simp [procCount, List.filter_append]

theorem procCount_replicate_idle (n : Nat) (id : String) :
    procCount (List.replicate n WPhase.idle) id = 0 := by
  induction n with
  | zero => rfl
  | succ k ih =>
      rw [List.replicate_succ, procCount_cons, ih]
      rfl

theorem svcInv_init (n : Nat) : SvcInv (initSys n) := by
  refine ⟨List.nodup_nil, ?_, ?_⟩
  · intro id
    simp [initSys, procCount_replicate_idle]
  · intro id
    simp [initSys, List.mem_replicate]

theorem svcInv_step {s t : Sys} (hs : SvcInv s) (h : NRStep s t) : SvcInv t := by
  obtain ⟨hnd, hcnt, hnr⟩ := hs
  cases h with
  | dropBusy s id hmem => exact ⟨hnd, hcnt, hnr⟩
  | acquire a l r id hna =>
      refine ⟨List.nodup_cons.mpr ⟨hna, hnd⟩, ?_, ?_⟩
      · intro i
        have hc := hcnt i
        simp only [procCount_append, procCount_cons] at hc ⊢
        rw [List.count_cons]
        by_cases hii : i = id
        · subst hii
          simp [isProcessingFor] at hc ⊢
          omega
        · simp [isProcessingFor, hii, Ne.symm hii] at hc ⊢
          omega
      · intro i
        have hi := hnr i
        simp only [List.mem_append, List.mem_cons] at hi ⊢
        rintro (h1 | h2 | h3)
        · exact hi (Or.inl h1)
        · exact WPhase.noConfusion h2
        · exact hi (Or.inr (Or.inr h3))
  | finish a l r id =>
      refine ⟨hnd.erase id, ?_, ?_⟩
      · intro i
        have hc := hcnt i
        simp only [procCount_append, procCount_cons] at hc ⊢
        by_cases hii : i = id
        · subst hii
          rw [List.count_erase_self]
          simp [isProcessingFor] at hc ⊢
          omega
        · rw [List.count_erase_of_ne hii]
          simp [isProcessingFor, hii, Ne.symm hii] at hc ⊢
          omega
      · intro i
        have hi := hnr i
        simp only [List.mem_append, List.mem_cons] at hi ⊢
        rintro (h1 | h2 | h3)
        · exact hi (Or.inl h1)
        · exact WPhase.noConfusion h2
        · exact hi (Or.inr (Or.inr h3))

theorem svcInv_reach {n : Nat} {s : Sys} (h : NRReach (initSys n) s) : SvcInv s := by
  induction h with
  | refl => exact svcInv_init n
  | tail hr hstep ih => exact svcInv_step ih hstep

/-- Claim C4 amended: for non-removal events the orchestrator atomically
test-and-inserts the id (dropping the event when present) and removes it
unconditionally at the end of `_process_usb_event`; in every execution
containing no removal events, an id is in the active set exactly while
one worker is inside `_process_usb_event` for it, and at most one toggle
action runs concurrently per device.  (The unrestricted claim is refuted
by `concurrent_toggle_counterexample`: a removal event bypasses the set,
clears membership mid-flight, and runs its own toggle concurrently with a
still-running arrival toggle for the same device.) -/
theorem active_set_serializes_without_removals :
    ∀ (n : Nat) (s : Sys), NRReach (initSys n) s → ∀ id : String,
    togglingCount s id ≤ 1 ∧ (id ∈ s.active ↔ 0 < procCount s.workers id) := by
  intro n s h id
  obtain ⟨hnd, hcnt, hnr⟩ := svcInv_reach h
  have htp : togglingCount s id = procCount s.workers id := by
    unfold togglingCount procCount
    congr 1
    apply List.filter_congr
    intro p hp
    cases p with
    | idle => rfl
    | processing j => rfl
    | removing j => exact absurd hp (hnr j)
  constructor
  · rw [htp, ← hcnt id]
    exact List.nodup_iff_count_le_one.mp hnd id
  · rw [← hcnt id]
    exact List.count_pos_iff.symm

/-- Concrete run of `active_set_serializes_without_removals`: after one
worker acquires "X", the set contains "X", exactly one worker is
processing it and at most one toggle runs. -/
theorem active_set_serializes_without_removals_witness :
    togglingCount ⟨["X"], [WPhase.processing "X", WPhase.idle]⟩ "X" ≤ 1 ∧
    ("X" ∈ (Sys.mk ["X"] [WPhase.processing "X", WPhase.idle]).active ↔
      0 < procCount [WPhase.processing "X", WPhase.idle] "X") :=
  active_set_serializes_without_removals 2
    ⟨["X"], [WPhase.processing "X", WPhase.idle]⟩
    (NRReach.tail NRReach.refl (NRStep.acquire [] [] [WPhase.idle] "X" (by simp))) "X"

/-- Claim C4 fails as stated: from the initial two-worker state, one
worker can be inside `_process_usb_event` for device "X" while a removal
event for "X" (which bypasses the set check and clears the membership the
first worker holds) runs its own disable toggle — a reachable state in
which two lock/unlock toggle actions for the same device run
concurrently. -/
theorem concurrent_toggle_counterexample :
    SReach (initSys 2) ⟨[], [WPhase.processing "X", WPhase.removing "X"]⟩ ∧
    togglingCount ⟨[], [WPhase.processing "X", WPhase.removing "X"]⟩ "X" = 2 := by
  constructor
  · have s1 : SStep (initSys 2) ⟨["X"], [WPhase.processing "X", WPhase.idle]⟩ :=
      SStep.acquire [] [] [WPhase.idle] "X" (by simp)
    have s2 : SStep ⟨["X"], [WPhase.processing "X", WPhase.idle]⟩
        ⟨[], [WPhase.processing "X", WPhase.removing "X"]⟩ :=
      SStep.removalClear ["X"] [WPhase.processing "X"] [] "X"
    exact SReach.tail (SReach.tail SReach.refl s1) s2
  · rfl

end LockPort
